import Mathlib

/-!
Verification of the SoftDev-Solutions persistence layer and request handlers.

The definitions below are a shallow embedding of the repository's TypeScript
sources:
* the embedded (SQLite, `better-sqlite3`) record store — the synchronous
  `UserRepository` (createUser, getUserById, getUserByEmail, updateUser,
  deleteUser, getUserCount, searchUsers, ...);
* the email-domain validator (`EmailValidator.validateDomain`);
* the registration route (`POST /api/register`) and the contact route's
  SMTP-error message mapping;
* the server-based backend's schema-initialization retry loop
  (`initializeDatabaseWithRetry`, in both of its variants present in the
  sources: the fixed-delay one and the exponential-backoff-with-jitter one).

Machine integers of the source are modelled as `Nat`/`Int`/`Rat`; JavaScript
strings as `String` manipulated through `List Char`; fallible operations
return `Except`; the database table is an explicit list of rows threaded
through each operation.  `Date`/`CURRENT_TIMESTAMP` values are an abstract
`Nat` supplied by the caller.
-/

namespace SoftDev

/-- ASCII whitespace as recognised by JavaScript's `String.prototype.trim`
(restricted to the ASCII range; all strings in the repository are ASCII). -/
def isWsChar (c : Char) : Bool :=
  c == ' ' || c == '\t' || c == '\n' || c == '\r' || c == '\x0b' || c == '\x0c'

/-- `trim` on a list of characters: drop whitespace from both ends
(`List.rdropWhile p l` is `(l.reverse.dropWhile p).reverse`). -/
def trimChars (l : List Char) : List Char :=
  List.rdropWhile isWsChar (l.dropWhile isWsChar)

/-- JavaScript `s.toLowerCase().trim()` (ASCII model), the normalization the
repository applies to every email before storing or querying it
(`userData.email.toLowerCase().trim()`). -/
def normEmailChars (l : List Char) : List Char :=
  trimChars (l.map Char.toLower)

/-- String form of `normEmailChars`. -/
def normEmail (s : String) : String :=
  String.mk (normEmailChars s.toList)

/-- JavaScript `s.trim()` on strings (ASCII model). -/
def trimStr (s : String) : String :=
  String.mk (trimChars s.toList)

/-- JavaScript `hay.includes(needle)`: substring containment. -/
def strIncludes (hay needle : String) : Bool :=
  decide (needle.toList <:+: hay.toList)

/-- A row of the `users` table (the `User` interface of the store modules).
SQLite represents the boolean flags as 0/1 integers; we model them as `Bool`.
Timestamps are abstract instants (`Nat`). -/
structure User where
  id : Nat
  first_name : String
  last_name : String
  email : String
  company : String
  phone : String
  message : String
  email_sent : Bool
  email_sent_at : Option Nat
  email_message_id : Option String
  admin_notification_sent : Bool
  admin_notification_sent_at : Option Nat
  admin_notification_message_id : Option String
  created_at : Nat
  updated_at : Nat
  deriving Repr, DecidableEq

/-- `CreateUserData` of the store modules (`message` optional). -/
structure CreateUserData where
  firstName : String
  lastName : String
  email : String
  company : String
  phone : String
  message : Option String
  deriving Repr, DecidableEq

/-- `Partial CreateUserData` as passed to `updateUser`: every field may be
absent (`none` = JavaScript `undefined`). -/
structure PartialUserData where
  firstName : Option String := none
  lastName : Option String := none
  email : Option String := none
  company : Option String := none
  phone : Option String := none
  message : Option String := none
  deriving Repr, DecidableEq

/-- The `users` table plus the AUTOINCREMENT counter. -/
structure Store where
  users : List User
  nextId : Nat
  deriving Repr, DecidableEq

/-- The store error relevant to this slice: SQLite's UNIQUE-constraint
violation on `users.email` (`SqliteError: UNIQUE constraint failed`). -/
inductive DbError where
  | uniqueViolation
  deriving Repr, DecidableEq

/-- JavaScript truthiness of an optional string field: present and nonempty
(`if (userData.firstName) { ... }`). -/
def optTruthy (o : Option String) : Bool :=
  match o with
  | some s => !(s == "")
  | none => false

/-- The row `UserRepository.createUser` inserts: email lowercased and
trimmed, `message` defaulted to the empty string (`userData.message || ''`),
the next AUTOINCREMENT id, notification flags at their column defaults, and
both timestamps at the insert instant. -/
def mkUser (d : CreateUserData) (now id : Nat) : User :=
  { id := id
    first_name := d.firstName
    last_name := d.lastName
    email := normEmail d.email
    company := d.company
    phone := d.phone
    message := match d.message with
      | some s => if s == "" then "" else s
      | none => ""
    email_sent := false
    email_sent_at := none
    email_message_id := none
    admin_notification_sent := false
    admin_notification_sent_at := none
    admin_notification_message_id := none
    created_at := now
    updated_at := now }

/-- `UserRepository.createUser`: inserts the normalized row and returns it;
fails with the UNIQUE-constraint error when a row with the same stored email
already exists. -/
def createUser (d : CreateUserData) (now : Nat) (st : Store) :
    Except DbError (User × Store) :=
  if st.users.any (fun u => u.email == normEmail d.email) then
    .error .uniqueViolation
  else
    let u := mkUser d now st.nextId
    .ok (u, { users := st.users ++ [u], nextId := st.nextId + 1 })

/-- `UserRepository.getUserById`: `SELECT * FROM users WHERE id = ?`. -/
def getUserById (id : Nat) (st : Store) : Option User :=
  st.users.find? (fun u => u.id == id)

/-- `UserRepository.getUserByEmail`: the lookup key is lowercased and trimmed
before the query (`email.toLowerCase().trim()`). -/
def getUserByEmail (email : String) (st : Store) : Option User :=
  st.users.find? (fun u => u.email == normEmail email)

/-- `UserRepository.getUserCount`: `SELECT COUNT(*) FROM users`. -/
def getUserCount (st : Store) : Nat :=
  st.users.length

/-- `UserRepository.deleteUser`: removes the row and reports whether one was
removed (`result.changes > 0`). -/
def deleteUser (id : Nat) (st : Store) : Bool × Store :=
  let remaining := st.users.filter (fun u => !(u.id == id))
  (remaining.length < st.users.length, { st with users := remaining })

/-- The row mutation performed by `UserRepository.updateUser`'s generated
`UPDATE users SET ...` statement: each of the five string columns is set only
when the supplied value is JavaScript-truthy (present and nonempty,
`if (userData.firstName)`), the email value is lowercased and trimmed,
`message` is set whenever it is present at all (`userData.message !==
undefined`), and `updated_at` is set to `CURRENT_TIMESTAMP`. -/
def applyPartialData (p : PartialUserData) (now : Nat) (u : User) : User :=
  { u with
    first_name := match p.firstName with
      | some s => if s == "" then u.first_name else s
      | none => u.first_name
    last_name := match p.lastName with
      | some s => if s == "" then u.last_name else s
      | none => u.last_name
    email := match p.email with
      | some s => if s == "" then u.email else normEmail s
      | none => u.email
    company := match p.company with
      | some s => if s == "" then u.company else s
      | none => u.company
    phone := match p.phone with
      | some s => if s == "" then u.phone else s
      | none => u.phone
    message := match p.message with
      | some s => s
      | none => u.message
    updated_at := now }

/-- `fields.length === 0` in `updateUser`: no SET clause was accumulated. -/
def noFieldsSupplied (p : PartialUserData) : Bool :=
  !optTruthy p.firstName && !optTruthy p.lastName && !optTruthy p.email &&
  !optTruthy p.company && !optTruthy p.phone && p.message.isNone

/-- `UserRepository.updateUser`: when no field is supplied it short-circuits
to `getUserById` (no write); otherwise it runs the UPDATE (touching every row
whose id matches) and re-reads the row, returning `null` when the id is
absent. -/
def updateUser (id : Nat) (p : PartialUserData) (now : Nat) (st : Store) :
    Option User × Store :=
  if noFieldsSupplied p then
    (getUserById id st, st)
  else
    let st1 : Store :=
      { st with users := st.users.map (fun u => if u.id == id then applyPartialData p now u else u) }
    (getUserById id st1, st1)

/-! ### SQL LIKE matching (`searchUsers`)

`searchUsers` issues `WHERE first_name LIKE ? OR ... OR company LIKE ?` with
the pattern `'%' + searchTerm + '%'`.  `likeMatch` is the standard semantics
of a LIKE pattern (the SQL engine is a platform service): `%` matches any
sequence, `_` any single character, any other pattern character matches a
single equal character — case-insensitively for the embedded SQLite backend
(ASCII case folding, SQLite's behaviour), case-sensitively for the
PostgreSQL backend. -/

/-- Character comparison of the LIKE matcher: ASCII case-insensitive when
`ci` is set. -/
def charEqCI (ci : Bool) (c d : Char) : Bool :=
  if ci then c.toLower == d.toLower else c == d

/-- LIKE-pattern matching against a string, both as character lists. -/
def likeMatch (ci : Bool) : List Char → List Char → Bool
  | [], s => s.isEmpty
  | c :: p, s =>
    if c == '%' then
      (List.range (s.length + 1)).any (fun k => likeMatch ci p (s.drop k))
    else
      match s with
      | [] => false
      | d :: t => (c == '_' || charEqCI ci c d) && likeMatch ci p t

/-- The pattern `searchUsers` builds: `'%' + searchTerm + '%'`. -/
def likePattern (term : String) : List Char :=
  '%' :: (term.toList ++ ['%'])

/-- The WHERE clause of `searchUsers`: the pattern against any of the four
searched columns. -/
def rowMatchesSearch (ci : Bool) (term : String) (u : User) : Bool :=
  likeMatch ci (likePattern term) u.first_name.toList ||
  likeMatch ci (likePattern term) u.last_name.toList ||
  likeMatch ci (likePattern term) u.email.toList ||
  likeMatch ci (likePattern term) u.company.toList

/-- Insert into a list sorted by `created_at` descending. -/
def insertDesc (u : User) : List User → List User
  | [] => [u]
  | v :: vs => if v.created_at ≤ u.created_at then u :: v :: vs else v :: insertDesc u vs

/-- `ORDER BY created_at DESC`. -/
def sortByCreatedDesc : List User → List User
  | [] => []
  | u :: us => insertDesc u (sortByCreatedDesc us)

/-- `UserRepository.searchUsers` of the embedded (SQLite) backend: filter by
the LIKE pattern (case-insensitive there) and order by `created_at`
descending. -/
def searchUsers (term : String) (st : Store) : List User :=
  sortByCreatedDesc (st.users.filter (rowMatchesSearch true term))

/-- `UserRepository.searchUsers` of the server-based (PostgreSQL) backend:
identical SQL, but `LIKE` compares case-sensitively there. -/
def searchUsersPg (term : String) (st : Store) : List User :=
  sortByCreatedDesc (st.users.filter (rowMatchesSearch false term))

/-- A character list free of LIKE wildcard characters. -/
def noWildcardChars (l : List Char) : Bool :=
  !(l.contains '%') && !(l.contains '_')

/-- A search term free of LIKE wildcard characters. -/
def noWildcard (term : String) : Bool :=
  noWildcardChars term.toList

/-- The character normalization the LIKE comparison applies: ASCII lowering
in case-insensitive mode, identity otherwise. -/
def nrmChar (ci : Bool) (c : Char) : Char :=
  if ci then c.toLower else c

/-- ASCII lowering of a character list. -/
def lowerChars (l : List Char) : List Char :=
  l.map Char.toLower

/-- Case-insensitive (ASCII) substring containment: the spec's reading of a
search hit. -/
def containsCI (field term : String) : Bool :=
  decide (lowerChars term.toList <:+: lowerChars field.toList)

/-- Case-sensitive substring containment. -/
def containsCS (field term : String) : Bool :=
  decide (term.toList <:+: field.toList)

/-! ### Email validator (`src/lib/emailValidation.ts`) -/

/-- The outcome of one DNS lookup (`resolveMx` / `resolve4` / `resolve6`): a
list of records on success, or a thrown resolution error. -/
abbrev DnsLookup := Except Unit (List String)

/-- The records a lookup resolved to, a failed lookup counting as resolving
to none (the spec's reading of a lookup outcome). -/
def lookupRecords (r : DnsLookup) : List String :=
  match r with
  | .ok l => l
  | .error _ => []

/-- The `ValidationResult` of `EmailValidator` with its `details` flattened
(`details.domain`, `details.mxRecords`, `details.hasRecords`). -/
structure ValidationResult where
  isValid : Bool
  error : Option String
  domain : Option String
  mxRecords : Option (List String)
  hasRecords : Bool
  deriving Repr, DecidableEq

/-- The tail of `EmailValidator.validateDomain`: after the A/AAAA fallback
block falls through, the function returns valid-with-MX-records when
`mxRecords.length > 0` and otherwise the terminal invalid result with its
descriptive error. -/
def validateDomainTail (domain : String) (mxRecords : List String) : ValidationResult :=
  if mxRecords.length > 0 then
    { isValid := true, error := none, domain := some domain,
      mxRecords := some mxRecords, hasRecords := true }
  else
    { isValid := false, error := some "Domain does not have valid MX or A records",
      domain := some domain, mxRecords := none, hasRecords := false }

/-- The early return of the A/AAAA fallback block: valid with an empty
`mxRecords` list. -/
def validADomainResult (domain : String) : ValidationResult :=
  { isValid := true, error := none, domain := some domain,
    mxRecords := some ([] : List String), hasRecords := true }

/-- `EmailValidator.validateDomain`, as a function of the three DNS lookup
outcomes: a failed MX lookup yields an empty `mxRecords`; when `mxRecords`
is empty the A lookup is tried, returning early if it yields at least one
record; the AAAA lookup is tried only inside the `catch` of a FAILED A
lookup; otherwise control falls through to `validateDomainTail`.  (The
function's outer `catch` is unreachable here: every lookup failure is
handled by an inner `catch`.) -/
def validateDomain (domain : String) (mx a aaaa : DnsLookup) : ValidationResult :=
  let mxRecords : List String := match mx with
    | .ok l => l
    | .error _ => []
  if mxRecords.length == 0 then
    match a with
    | .ok aRecords =>
      if aRecords.length > 0 then validADomainResult domain
      else validateDomainTail domain mxRecords
    | .error _ =>
      match aaaa with
      | .ok aaaaRecords =>
        if aaaaRecords.length > 0 then validADomainResult domain
        else validateDomainTail domain mxRecords
      | .error _ => validateDomainTail domain mxRecords
  else validateDomainTail domain mxRecords

/-- The email-format regular expression shared by `EmailValidator.
validateFormat` and the registration route: `^[^\s@]+@[^\s@]+\.[^\s@]+$`.
Executable model: exactly one `@`; a nonempty whitespace-free local part; a
whitespace-free domain containing a `.` that is neither its first nor its
last character (the classes `[^\s@]` admit dots, so any interior dot splits
the domain for the regex). -/
def emailFormatValid (e : String) : Bool :=
  match e.toList.splitOn '@' with
  | [a, b] =>
    !a.isEmpty && a.all (fun c => !isWsChar c) &&
    !b.isEmpty && b.all (fun c => !isWsChar c) &&
    ((b.drop 1).dropLast).contains '.'
  | _ => false

/-! ### Contact-route SMTP error mapping (`POST /api/contact`) -/

/-- Message of the branch testing `550` (twice, verbatim in the source):
the recipient address is invalid or unreachable. -/
def contactMsg550 : String :=
  "The recipient email address is invalid or unreachable. Please contact support at contact@softdev-solutions.com."

/-- Message of the `550-5.1.1` branch: the recipient address does not
exist. -/
def contactMsg5511 : String :=
  "The recipient email address does not exist. Please contact support directly."

/-- Message of the `451` / `temporarily` branch: the service is
temporarily unavailable. -/
def contactMsg451 : String :=
  "Email service is temporarily unavailable. Please try again in a few minutes."

/-- Message of the `550` / `invalid` / `unreachable` branch: unable to
reach the recipient address. -/
def contactMsgInvalid : String :=
  "Unable to reach the recipient email address. Please try again later or contact us via phone."

/-- Message of the `connection` / `network` branch: network connection
error. -/
def contactMsgNetwork : String :=
  "Network connection error. Please check your internet connection and try again."

/-- The generic fallback message of the contact route. -/
def contactGenericMsg : String :=
  "Failed to send message. Please try again later."

/-- The error-message mapping of the contact route's `catch (emailError)`
block, branch for branch — including the source's duplicated first test (the same `550` containment check
repeated on both sides of an or, ), which shadows the later `550-5.1.1` and
`550` tests. -/
def contactErrorMessage (errorMessage : String) : String :=
  if strIncludes errorMessage "550" || strIncludes errorMessage "550" then
    contactMsg550
  else if strIncludes errorMessage "550-5.1.1" then
    contactMsg5511
  else if strIncludes errorMessage "451" || strIncludes errorMessage "temporarily" then
    contactMsg451
  else if strIncludes errorMessage "550" || strIncludes errorMessage "invalid" ||
      strIncludes errorMessage "unreachable" then
    contactMsgInvalid
  else if strIncludes errorMessage "connection" || strIncludes errorMessage "network" then
    contactMsgNetwork
  else
    contactGenericMsg

/-! ### Registration route (`POST /api/register`) -/

/-- The request body of the registration route; every field may be absent. -/
structure RegisterReq where
  firstName : Option String := none
  lastName : Option String := none
  email : Option String := none
  company : Option String := none
  phone : Option String := none
  message : Option String := none
  deriving Repr, DecidableEq

/-- The result shape of `emailService.sendWelcomeEmail` /
`sendAdminNotification`: a success flag and an optional transport message
id.  (A send that throws behaves, for the route, like `success = false`: the
route's own `catch` only logs.) -/
structure EmailOutcome where
  success : Bool
  messageId : Option String
  deriving Repr, DecidableEq

/-- The public projection of a created user returned by the route
(`id, firstName, lastName, email, company, createdAt`). -/
structure PublicUser where
  id : Nat
  firstName : String
  lastName : String
  email : String
  company : String
  createdAt : Nat
  deriving Repr, DecidableEq

/-- The route's JSON response: HTTP status (200 on the success path —
`NextResponse.json` with no explicit status), an optional `error` string,
and the optional `user` projection. -/
structure RegisterResponse where
  status : Nat
  error : Option String
  user : Option PublicUser
  deriving Repr, DecidableEq

/-- Modelled from the spec: `UserRepository.updateEmailSentStatus` is called
by the registration route after a successful welcome-email send but is not
defined in the available sources.  Per the spec, it updates the created
record's welcome-notification fields: `sent = true`, `sent_at = now`, and
the transport's `message_id`. -/
def updateEmailSentStatus (id : Nat) (messageId : String) (now : Nat) (st : Store) : Store :=
  { st with users := st.users.map (fun u =>
      if u.id == id then
        { u with email_sent := true, email_sent_at := some now,
                 email_message_id := some messageId }
      else u) }

/-- Modelled from the spec: `UserRepository.updateAdminNotificationSentStatus`
(same shape as `updateEmailSentStatus`, for the admin-notification
fields). -/
def updateAdminNotificationSentStatus (id : Nat) (messageId : String) (now : Nat)
    (st : Store) : Store :=
  { st with users := st.users.map (fun u =>
      if u.id == id then
        { u with admin_notification_sent := true,
                 admin_notification_sent_at := some now,
                 admin_notification_message_id := some messageId }
      else u) }

/-- The route's required-field presence gate:
`if (!firstName || !lastName || !email || !company || !phone)`. -/
def requiredFieldsPresent (req : RegisterReq) : Bool :=
  optTruthy req.firstName && optTruthy req.lastName && optTruthy req.email &&
  optTruthy req.company && optTruthy req.phone

/-- The `userData` object the route builds: every field trimmed, the email
additionally lowercased, and `message` defaulted via `message?.trim() || ''`
(for a string `s`, `s.trim() || ''` equals `s.trim()`). -/
def userDataOf (req : RegisterReq) : CreateUserData :=
  { firstName := trimStr (req.firstName.getD "")
    lastName := trimStr (req.lastName.getD "")
    email := normEmail (req.email.getD "")
    company := trimStr (req.company.getD "")
    phone := trimStr (req.phone.getD "")
    message := some (match req.message with
      | some m => trimStr m
      | none => "") }

/-- The public projection of a created user built by the route's success
response. -/
def publicProjection (u : User) : PublicUser :=
  { id := u.id, firstName := u.first_name, lastName := u.last_name,
    email := u.email, company := u.company, createdAt := u.created_at }

/-- The two best-effort notification steps of the route: each send updates
the corresponding status fields only when it reports success with a truthy
(nonempty) message id. -/
def applyNotifications (welcome admin : EmailOutcome) (id now : Nat) (st : Store) : Store :=
  let st2 := if welcome.success && optTruthy welcome.messageId then
      updateEmailSentStatus id (welcome.messageId.getD "") now st
    else st
  if admin.success && optTruthy admin.messageId then
    updateAdminNotificationSentStatus id (admin.messageId.getD "") now st2
  else st2

/-- The per-row effect of the route's two best-effort status updates on the
created row (derived from `applyNotifications` for use in statements): the
welcome fields are set when the welcome send succeeded with a truthy message
id, the admin-notification fields likewise. -/
def notifiedUser (welcome admin : EmailOutcome) (now : Nat) (u : User) : User :=
  let u2 := if welcome.success && optTruthy welcome.messageId then
      { u with email_sent := true, email_sent_at := some now,
               email_message_id := some (welcome.messageId.getD "") }
    else u
  if admin.success && optTruthy admin.messageId then
    { u2 with admin_notification_sent := true, admin_notification_sent_at := some now,
              admin_notification_message_id := some (admin.messageId.getD "") }
  else u2

/-- The 400 response for missing required fields. -/
def missingFieldsMsg : String := "All required fields must be provided"

/-- The 400 response for a malformed email. -/
def badEmailMsg : String := "Please provide a valid email address"

/-- The 409 response for an existing email. -/
def duplicateEmailMsg : String := "An account with this email already exists"

/-- The 500 response of the route's outer `catch`. -/
def internalErrorMsg : String := "Internal server error. Please try again later."

/-- The registration route, parameterized over TWO store snapshots: the
store `stCheck` answering the duplicate pre-check and the store `stPersist`
the insert runs against.  A sequential request uses the same store for both
(`registerPOST`); a concurrent duplicate registration that lands between the
check and the insert is represented by an `stPersist` that already contains
the email.  The route: validates field presence (JS truthiness) and email
format (400), pre-checks the email (409), persists the trimmed and
normalized data, and on ANY exception from the insert answers the generic
500 — the catch block does not special-case the UNIQUE-constraint error.
The two best-effort sends update the notification-status fields only when
the send reports success with a truthy message id; their failure does not
change the response. -/
def registerPOSTCore (req : RegisterReq) (welcome admin : EmailOutcome) (now : Nat)
    (stCheck stPersist : Store) : RegisterResponse × Store :=
  if !requiredFieldsPresent req then
    ({ status := 400, error := some missingFieldsMsg, user := none }, stPersist)
  else if !emailFormatValid (req.email.getD "") then
    ({ status := 400, error := some badEmailMsg, user := none }, stPersist)
  else if (getUserByEmail (req.email.getD "") stCheck).isSome then
    ({ status := 409, error := some duplicateEmailMsg, user := none }, stPersist)
  else
    match createUser (userDataOf req) now stPersist with
    | .error _ =>
      ({ status := 500, error := some internalErrorMsg, user := none }, stPersist)
    | .ok (newUser, st1) =>
      ({ status := 200, error := none, user := some (publicProjection newUser) },
       applyNotifications welcome admin newUser.id now st1)

/-- A sequential registration request: check and persist see one store. -/
def registerPOST (req : RegisterReq) (welcome admin : EmailOutcome) (now : Nat)
    (st : Store) : RegisterResponse × Store :=
  registerPOSTCore req welcome admin now st st

/-! ### Store-initialization retry (server-based backend)

Two variants of `initializeDatabaseWithRetry` appear in the sources: the
fixed-delay variant of `src/lib/database.ts` (maxRetries 5, constant
`delayMs` wait, three connection-error patterns), and the fuller variant
shipped alongside it (maxRetries 10, exponential backoff `baseDelay *
1.5^(attempt-1)` plus random jitter in `[0, 1000)` capped at 30000 ms, ten
connection-error patterns).  Schema setup is abstracted as an oracle from
the attempt number to a result; delays are exact rationals; the jitter
stream stands for the `Math.random() * 1000` draws. -/

/-- The connection-class patterns of the full variant's `Error` branch:
connection refused, DNS lookup failure, timeout, TLS/certificate failure,
socket reset. -/
def connectionErrorSubstrings : List String :=
  ["ECONNREFUSED", "connect", "timeout", "Connection terminated", "ENOTFOUND",
   "ETIMEDOUT", "SSL", "certificate", "getaddrinfo", "socket hang up"]

/-- `isConnectionError` of the full variant. -/
def isConnectionErrorFull (msg : String) : Bool :=
  connectionErrorSubstrings.any (fun pat => strIncludes msg pat)

/-- `isConnectionError` of the fixed-delay variant. -/
def isConnectionErrorSimple (msg : String) : Bool :=
  strIncludes msg "ECONNREFUSED" || strIncludes msg "connect" || strIncludes msg "timeout"

/-- The wait before the retry following attempt `attempt` in the full
variant: `Math.min(baseDelay * Math.pow(1.5, attempt - 1) + Math.random() *
1000, 30000)`. -/
def backoffDelay (baseDelay : ℚ) (jitter : Nat → ℚ) (attempt : Nat) : ℚ :=
  min (baseDelay * (3 / 2 : ℚ) ^ (attempt - 1) + jitter attempt) 30000

/-- The retry loop of the full variant, returning the final result and the
list of waits it slept.  `fuel` counts the attempts still allowed
(`maxRetries - attempt + 1`); an attempt that fails with a connection-class
error retries while `attempt < maxRetries`, any other failure — or the last
attempt's — is propagated. -/
def retryLoopFull (oracle : Nat → Except String Unit) (jitter : Nat → ℚ)
    (baseDelay : ℚ) (maxRetries : Nat) : Nat → Nat → Except String Unit × List ℚ
  | 0, _ => (.ok (), [])
  | fuel + 1, attempt =>
    match oracle attempt with
    | .ok _ => (.ok (), [])
    | .error msg =>
      if isConnectionErrorFull msg && decide (attempt < maxRetries) then
        let d := backoffDelay baseDelay jitter attempt
        let rest := retryLoopFull oracle jitter baseDelay maxRetries fuel (attempt + 1)
        (rest.1, d :: rest.2)
      else
        (.error msg, [])

/-- `initializeDatabaseWithRetry` of the full (backoff + jitter) variant. -/
def initializeDatabaseWithRetryFull (maxRetries : Nat) (baseDelay : ℚ)
    (oracle : Nat → Except String Unit) (jitter : Nat → ℚ) :
    Except String Unit × List ℚ :=
  retryLoopFull oracle jitter baseDelay maxRetries maxRetries 1

/-- The retry loop of the fixed-delay variant of `src/lib/database.ts`:
identical control flow, but every wait is the constant `delayMs` and the
connection classification is the three-pattern one. -/
def retryLoopSimple (oracle : Nat → Except String Unit) (delayMs : ℚ)
    (maxRetries : Nat) : Nat → Nat → Except String Unit × List ℚ
  | 0, _ => (.ok (), [])
  | fuel + 1, attempt =>
    match oracle attempt with
    | .ok _ => (.ok (), [])
    | .error msg =>
      if isConnectionErrorSimple msg && decide (attempt < maxRetries) then
        let rest := retryLoopSimple oracle delayMs maxRetries fuel (attempt + 1)
        (rest.1, delayMs :: rest.2)
      else
        (.error msg, [])

/-- `initializeDatabaseWithRetry` of `src/lib/database.ts` (fixed delay). -/
def initializeDatabaseWithRetry (maxRetries : Nat) (delayMs : ℚ)
    (oracle : Nat → Except String Unit) : Except String Unit × List ℚ :=
  retryLoopSimple oracle delayMs maxRetries maxRetries 1

/-! ### Concrete inputs used by witnesses and counterexamples -/

/-- An empty store. -/
def exampleStoreEmpty : Store := { users := [], nextId := 1 }

/-- A concrete stored row (company "Acme"). -/
def exampleUserAcme : User :=
  { id := 1, first_name := "John", last_name := "Doe", email := "john@ex.com",
    company := "Acme", phone := "+1", message := "", email_sent := false,
    email_sent_at := none, email_message_id := none,
    admin_notification_sent := false, admin_notification_sent_at := none,
    admin_notification_message_id := none, created_at := 3, updated_at := 3 }

/-- A store holding only `exampleUserAcme`. -/
def exampleStoreAcme : Store := { users := [exampleUserAcme], nextId := 2 }

/-- A creation payload whose email carries case and whitespace noise. -/
def exampleCreateData : CreateUserData :=
  { firstName := "John", lastName := "Doe", email := " JOHN@Ex.COM ",
    company := "Acme", phone := "+1", message := none }

/-- A valid registration request (uppercased email, no surrounding
whitespace — the route's format check runs before any trimming). -/
def exampleReq : RegisterReq :=
  { firstName := some "John", lastName := some "Doe", email := some "JOHN@Ex.COM",
    company := some "Acme", phone := some "+1", message := none }

/-- The same registration with the email already lowercased. -/
def exampleReq2 : RegisterReq :=
  { firstName := some "John", lastName := some "Doe", email := some "john@ex.com",
    company := some "Acme", phone := some "+1", message := none }

/-- A successful email-send outcome. -/
def mailOk : EmailOutcome := { success := true, messageId := some "msg-1" }

/-- A failed email-send outcome. -/
def mailFail : EmailOutcome := { success := false, messageId := none }

/-- A schema-setup oracle that fails with a connection-class error on the
first two attempts and succeeds on the third. -/
def exampleOracle : Nat → Except String Unit :=
  fun attempt => if attempt < 3 then .error "ECONNREFUSED 127.0.0.1:5432" else .ok ()

/-- A concrete jitter stream (each draw 7 ms). -/
def exampleJitter : Nat → ℚ := fun _ => 7


/-! ## Helper lemmas -/

theorem charOfNat_toNat (m : Nat) (h1 : 97 ≤ m) (h2 : m ≤ 122) :
    (Char.ofNat m).toNat = m := by
  interval_cases m <;> decide

theorem toLower_idem (c : Char) : c.toLower.toLower = c.toLower := by
  simp only [Char.toLower]
  split
  case isTrue h =>
    have h9 : (Char.ofNat (c.toNat + 32)).toNat = c.toNat + 32 :=
      charOfNat_toNat _ (by omega) (by omega)
    rw [h9]
    rw [if_neg (by omega : ¬(c.toNat + 32 ≥ 65 ∧ c.toNat + 32 ≤ 90))]
  case isFalse h =>
    simp [h]

theorem trimChars_idem (l : List Char) : trimChars (trimChars l) = trimChars l := by
  unfold trimChars
  set D := l.dropWhile isWsChar with hD
  set X := List.rdropWhile isWsChar D with hX
  have hpre : X <+: D := List.rdropWhile_prefix isWsChar D
  have hdw : X.dropWhile isWsChar = X := by
    rw [List.dropWhile_eq_self_iff]
    intro hl
    have hD0 : 0 < D.length := lt_of_lt_of_le hl hpre.length_le
    have hg : X.get ⟨0, hl⟩ = D.get ⟨0, hD0⟩ := by
      simpa [List.get_eq_getElem] using List.IsPrefix.getElem hpre hl
    rw [hg]
    exact List.dropWhile_get_zero_not isWsChar l hD0
  rw [hdw, hX]
  exact List.rdropWhile_idempotent isWsChar D

theorem mem_trimChars (a : Char) (l : List Char) (h : a ∈ trimChars l) : a ∈ l := by
  unfold trimChars at h
  have h0 := List.rdropWhile_prefix isWsChar (l.dropWhile isWsChar)
  have h1 := h0.subset h
  exact (List.dropWhile_sublist (p := isWsChar) (l := l)).subset h1

theorem normEmailChars_idem (l : List Char) :
    normEmailChars (normEmailChars l) = normEmailChars l := by
  unfold normEmailChars
  have h1 : (trimChars (l.map Char.toLower)).map Char.toLower
      = trimChars (l.map Char.toLower) := by
    have hall : ∀ a ∈ trimChars (l.map Char.toLower), Char.toLower a = a := by
      intro a ha
      obtain ⟨b, _, rfl⟩ := List.mem_map.mp (mem_trimChars a _ ha)
      exact toLower_idem b
    calc (trimChars (l.map Char.toLower)).map Char.toLower
        = (trimChars (l.map Char.toLower)).map id := List.map_congr_left hall
      _ = trimChars (l.map Char.toLower) := List.map_id _
  rw [h1, trimChars_idem]

theorem normEmail_idem (s : String) : normEmail (normEmail s) = normEmail s := by
  unfold normEmail
  exact congrArg String.mk (normEmailChars_idem s.toList)

theorem find?_map_pred {p : User → Bool} {f : User → User}
    (hf : ∀ u, p (f u) = p u) (l : List User) :
    (l.map f).find? p = (l.find? p).map f := by
  rw [List.find?_map]
  have : p ∘ f = p := funext hf
  rw [this]

theorem find?_append_none {p : User → Bool} {l1 l2 : List User}
    (h : l1.find? p = none) : (l1 ++ l2).find? p = l2.find? p := by
  induction l1 with
  | nil => simp
  | cons a t ih =>
    rw [List.find?_cons] at h
    rcases hpa : p a with _ | _
    · simp only [List.cons_append, List.find?_cons, hpa]
      exact ih (by simpa [hpa] using h)
    · simp [hpa] at h

/-! ## C8 and C10: updateUser -/

theorem updateUser_fst (id : Nat) (p : PartialUserData) (now : Nat) (st : Store)
    (h : noFieldsSupplied p = false) :
    (updateUser id p now st).1 =
      (getUserById id st).map (fun u => if u.id == id then applyPartialData p now u else u) := by
  unfold updateUser
  rw [if_neg (by simp [h])]
  show (st.users.map (fun u => if u.id == id then applyPartialData p now u else u)).find?
        (fun u => u.id == id)
      = (getUserById id st).map (fun u => if u.id == id then applyPartialData p now u else u)
  unfold getUserById
  exact find?_map_pred (p := fun u => u.id == id)
    (f := fun u => if u.id == id then applyPartialData p now u else u)
    (fun u => by by_cases hu : (u.id == id) = true <;> simp [applyPartialData, hu]) st.users


/-- C8: `updateUser(id, {})` with no fields supplied is a pure read: it
returns exactly `getUserById id` and leaves the store (hence `updated_at`)
untouched; an update that sets at least one field refreshes `updated_at` to
the call instant; and `updateUser` returns `none` when the id is absent. -/
theorem updateUser_spec (id : Nat) (p : PartialUserData) (now : Nat) (st : Store) :
    (updateUser id {} now st = (getUserById id st, st)) ∧
    (noFieldsSupplied p = false → ∀ u, getUserById id st = some u →
      ∃ u1, (updateUser id p now st).1 = some u1 ∧ u1.updated_at = now) ∧
    (getUserById id st = none → (updateUser id p now st).1 = none) := by
  refine ⟨?_, ?_, ?_⟩
  · unfold updateUser
    rw [if_pos (by decide)]
  · intro hp u hu
    have hu1 : st.users.find? (fun v => v.id == id) = some u := hu
    have hid : u.id = id := by
      have h2 := List.find?_some hu1
      simpa using h2
    refine ⟨applyPartialData p now u, ?_, ?_⟩
    · rw [updateUser_fst id p now st hp, hu]
      simp [hid]
    · simp [applyPartialData]
  · intro hnone
    by_cases hp : noFieldsSupplied p = true
    · unfold updateUser
      rw [if_pos hp]
      simpa using hnone
    · rw [updateUser_fst id p now st (by simpa using hp), hnone]
      rfl

/-- Witness for C8 at a concrete store: a one-field update refreshes
`updated_at`. -/
theorem updateUser_spec_witness :
    ∃ u1, (updateUser 1 { firstName := some "Jane" } 9 exampleStoreAcme).1 = some u1 ∧
      u1.updated_at = 9 :=
  (updateUser_spec 1 { firstName := some "Jane" } 9 exampleStoreAcme).2.1 (by decide)
    exampleUserAcme (by decide)

/-- C10: `updateUser` treats an empty string in any of the five string
fields as "not supplied" (an update carrying only empty strings for them and
no `message` short-circuits to a pure read, leaving `updated_at` alone),
whereas an empty-string `message` IS applied — the row's `message` becomes
empty, `updated_at` refreshes, and the five columns stay unchanged. -/
theorem updateUser_emptyStrings_spec (id : Nat) (now : Nat) (st : Store) :
    (updateUser id { firstName := some "", lastName := some "", email := some "",
                     company := some "", phone := some "", message := none } now st
        = (getUserById id st, st)) ∧
    (∀ u, getUserById id st = some u →
      ∃ u1, (updateUser id { message := some "" } now st).1 = some u1 ∧
        u1.message = "" ∧ u1.updated_at = now ∧ u1.first_name = u.first_name ∧
        u1.last_name = u.last_name ∧ u1.email = u.email ∧ u1.company = u.company ∧
        u1.phone = u.phone) := by
  constructor
  · unfold updateUser
    rw [if_pos (by decide)]
  · intro u hu
    have hu1 : st.users.find? (fun v => v.id == id) = some u := hu
    have hid : u.id = id := by
      have h2 := List.find?_some hu1
      simpa using h2
    refine ⟨applyPartialData { message := some "" } now u, ?_, ?_⟩
    · rw [updateUser_fst id _ now st (by decide), hu]
      simp [hid]
    · simp [applyPartialData]

/-- Witness for C10: the empty-string message is applied at a concrete
store. -/
theorem updateUser_emptyStrings_witness :
    ∃ u1, (updateUser 1 { message := some "" } 9 exampleStoreAcme).1 = some u1 ∧
      u1.message = "" ∧ u1.updated_at = 9 ∧
      u1.first_name = exampleUserAcme.first_name ∧
      u1.last_name = exampleUserAcme.last_name ∧ u1.email = exampleUserAcme.email ∧
      u1.company = exampleUserAcme.company ∧ u1.phone = exampleUserAcme.phone :=
  (updateUser_emptyStrings_spec 1 9 exampleStoreAcme).2 exampleUserAcme (by decide)

/-- C7: for a payload whose normalized email is absent from the store,
`createUser` succeeds and `getUserByEmail` with ANY casing/whitespace
variant of that email returns the created record, whose stored email is the
lowercased and trimmed input. -/
theorem createUser_getUserByEmail_roundtrip
    (d : CreateUserData) (v : String) (now : Nat) (st : Store)
    (hfresh : ∀ u ∈ st.users, u.email ≠ normEmail d.email)
    (hvar : normEmail v = normEmail d.email) :
    ∃ u st1, createUser d now st = .ok (u, st1) ∧
      getUserByEmail v st1 = some u ∧ u.email = normEmail d.email := by
  refine ⟨mkUser d now st.nextId,
    { users := st.users ++ [mkUser d now st.nextId], nextId := st.nextId + 1 },
    ?_, ?_, rfl⟩
  · unfold createUser
    rw [if_neg ?hc]
    case hc =>
      simp only [List.any_eq_true, not_exists, not_and]
      intro u hu
      simpa using hfresh u hu
  · unfold getUserByEmail
    show (st.users ++ [mkUser d now st.nextId]).find? (fun u => u.email == normEmail v)
        = some (mkUser d now st.nextId)
    rw [hvar, find?_append_none ?hn]
    · simp [mkUser]
    case hn =>
      rw [List.find?_eq_none]
      intro u hu
      simpa using hfresh u hu

/-- Witness for C7: creating with a noisy email and reading back with the
clean lowercase variant. -/
theorem createUser_roundtrip_witness :
    ∃ u st1, createUser exampleCreateData 5 exampleStoreEmpty = .ok (u, st1) ∧
      getUserByEmail "john@ex.com" st1 = some u ∧
      u.email = normEmail exampleCreateData.email :=
  createUser_getUserByEmail_roundtrip exampleCreateData "john@ex.com" 5
    exampleStoreEmpty (by simp [exampleStoreEmpty]) (by decide)

/-- C4 counterexample: when the MX lookup fails, the A lookup succeeds with
ZERO records, and the AAAA lookup would resolve to one record, the validator
reports invalid — the AAAA fallback runs only inside the A lookup's catch —
contradicting the claimed "valid iff any of MX/A/AAAA resolves to at least
one record". -/
theorem validateDomain_counterexample :
    ¬ (((validateDomain "example.org" (.error ()) (.ok []) (.ok ["2001:db8::1"])).isValid
          = true) ↔
        (lookupRecords (.error ()) ≠ [] ∨ lookupRecords (.ok ([] : List String)) ≠ [] ∨
          lookupRecords (.ok ["2001:db8::1"]) ≠ [])) := by
  decide

/-- C4 amended: MX is tried first (a failed MX lookup counting as empty);
with no MX records the A lookup is tried; the AAAA lookup is attempted only
when the A lookup FAILED (an A lookup succeeding with zero records skips
AAAA); the result is valid iff MX is nonempty, A succeeded nonempty, or A
failed and AAAA succeeded nonempty — and every invalid result carries the
descriptive error. -/
theorem validateDomain_spec (domain : String) (mx a aaaa : DnsLookup) :
    ((validateDomain domain mx a aaaa).isValid = true ↔
      (lookupRecords mx ≠ [] ∨ (∃ l, a = .ok l ∧ l ≠ []) ∨
        (a = .error () ∧ ∃ l, aaaa = .ok l ∧ l ≠ []))) ∧
    ((validateDomain domain mx a aaaa).isValid = false →
      (validateDomain domain mx a aaaa).error =
        some "Domain does not have valid MX or A records") := by
  unfold validateDomain validateDomainTail validADomainResult lookupRecords
  rcases mx with e | lmx <;> rcases a with e2 | la <;> rcases aaaa with e3 | laaaa
  all_goals try rcases lmx with _ | ⟨m, ms⟩
  all_goals try rcases la with _ | ⟨x, xs⟩
  all_goals try rcases laaaa with _ | ⟨y, ys⟩
  all_goals simp_all

/-- Witness for C4's amended claim: the invalid-result error message at a
concrete input. -/
theorem validateDomain_spec_witness :
    (validateDomain "example.org" (.error ()) (.error ()) (.error ())).error =
      some "Domain does not have valid MX or A records" :=
  (validateDomain_spec "example.org" (.error ()) (.error ()) (.error ())).2 (by decide)

theorem strIncludes_trans {m p q : String} (h : strIncludes m p = true)
    (hq : q.toList <:+: p.toList) : strIncludes m q = true := by
  unfold strIncludes at *
  exact decide_eq_true (hq.trans (of_decide_eq_true h))

/-- The contact route's error mapping in normalized form: the duplicated
`550` test shadows both the `550-5.1.1` branch and the `550` disjunct of the
`invalid`/`unreachable` branch, so the dedicated mailbox-does-not-exist
message is unreachable. -/
theorem contactErrorMessage_cases (m : String) :
    contactErrorMessage m =
      if strIncludes m "550" then contactMsg550
      else if strIncludes m "451" || strIncludes m "temporarily" then contactMsg451
      else if strIncludes m "invalid" || strIncludes m "unreachable" then contactMsgInvalid
      else if strIncludes m "connection" || strIncludes m "network" then contactMsgNetwork
      else contactGenericMsg := by
  unfold contactErrorMessage
  by_cases b1 : strIncludes m "550" = true
  · simp [b1]
  · have b1f : strIncludes m "550" = false := by simpa using b1
    have b2 : strIncludes m "550-5.1.1" = false := by
      cases h : strIncludes m "550-5.1.1"
      · rfl
      · exact absurd (strIncludes_trans (q := "550") h (by decide)) (by simp [b1f])
    simp [b1f, b2]

/-- C9 counterexample: a send failure matching none of the SMTP rejection
codes (no `550`, no `550-5.1.1`, no `451`) is mapped to the distinct
network-error message, not the single generic retry-later message. -/
theorem contactErrorMessage_counterexample :
    strIncludes "connection lost" "550" = false ∧
    strIncludes "connection lost" "550-5.1.1" = false ∧
    strIncludes "connection lost" "451" = false ∧
    contactErrorMessage "connection lost" ≠ contactGenericMsg := by
  decide

/-- C9 amended: a mailbox-does-not-exist rejection (550-5.1.1) and a
temporary-deferral rejection (451) do produce different messages from each
other, but the 550-5.1.1 rejection receives the plain-550 message (the
duplicated 550 branch shadows the dedicated one, which is unreachable), and
only failures matching none of the recognized patterns (550, 451,
temporarily, invalid, unreachable, connection, network) collapse to the
generic retry-later message. -/
theorem contactErrorMessage_spec (m : String) :
    (contactErrorMessage "550-5.1.1 mailbox unavailable" ≠
      contactErrorMessage "451 greylisted") ∧
    (strIncludes m "550" = true → contactErrorMessage m = contactMsg550) ∧
    (contactErrorMessage m ≠ contactMsg5511) ∧
    (contactErrorMessage m = contactGenericMsg ↔
      (strIncludes m "550" = false ∧ strIncludes m "451" = false ∧
       strIncludes m "temporarily" = false ∧ strIncludes m "invalid" = false ∧
       strIncludes m "unreachable" = false ∧ strIncludes m "connection" = false ∧
       strIncludes m "network" = false)) := by
  refine ⟨by decide, ?_, ?_, ?_⟩
  · intro h
    rw [contactErrorMessage_cases, if_pos h]
  · rw [contactErrorMessage_cases]
    split_ifs <;> decide
  · rw [contactErrorMessage_cases]
    split_ifs with h1 h2 h3 h4
    · exact iff_of_false (by decide) (by rintro ⟨r1, r2, r3, r4, r5, r6, r7⟩; simp_all)
    · exact iff_of_false (by decide)
        (by rintro ⟨r1, r2, r3, r4, r5, r6, r7⟩; rcases (Bool.or_eq_true _ _).mp h2 with h | h <;> simp_all)
    · exact iff_of_false (by decide)
        (by rintro ⟨r1, r2, r3, r4, r5, r6, r7⟩; rcases (Bool.or_eq_true _ _).mp h3 with h | h <;> simp_all)
    · exact iff_of_false (by decide)
        (by rintro ⟨r1, r2, r3, r4, r5, r6, r7⟩; rcases (Bool.or_eq_true _ _).mp h4 with h | h <;> simp_all)
    · exact iff_of_true rfl (by simp_all)

/-- Witness for C9's amended claim: a plain 550 rejection gets the 550
message. -/
theorem contactErrorMessage_spec_witness :
    contactErrorMessage "550 user unknown" = contactMsg550 :=
  (contactErrorMessage_spec "550 user unknown").2.1 (by decide)

/-! ## C5: searchUsers and LIKE matching -/

theorem charEqCI_eq (ci : Bool) (c d : Char) :
    charEqCI ci c d = (nrmChar ci c == nrmChar ci d) := by
  cases ci <;> simp [charEqCI, nrmChar]

theorem likeMatch_pct_nil (ci : Bool) (s : List Char) :
    likeMatch ci ['%'] s = true := by
  show (List.range (s.length + 1)).any (fun k => likeMatch ci [] (s.drop k)) = true
  rw [List.any_eq_true]
  refine ⟨s.length, by simp, ?_⟩
  show (s.drop s.length).isEmpty = true
  simp [List.drop_length]

theorem likeMatch_lit_pct (ci : Bool) (term : List Char)
    (h : noWildcardChars term = true) (s : List Char) :
    likeMatch ci (term ++ ['%']) s = true ↔
      (term.map (nrmChar ci)) <+: (s.map (nrmChar ci)) := by
  induction term generalizing s with
  | nil =>
    simpa using likeMatch_pct_nil ci s
  | cons c term2 ih =>
    have hc : (c == '%') = false ∧ (c == '_') = false ∧ noWildcardChars term2 = true := by
      simp only [noWildcardChars, List.contains_cons, Bool.not_or, Bool.and_eq_true,
        Bool.not_eq_true'] at h ⊢
      refine ⟨?_, ?_, h.1.2, h.2.2⟩
      · simpa [BEq.comm] using h.1.1
      · simpa [BEq.comm] using h.2.1
    cases s with
    | nil =>
      simp [likeMatch, hc.1]
    | cons d t =>
      rw [List.cons_append]
      show ((if (c == '%') = true then _ else
        match d :: t with
        | [] => false
        | d :: t => (c == '_' || charEqCI ci c d) && likeMatch ci (term2 ++ ['%']) t) = true) ↔ _
      rw [if_neg (by simp [hc.1])]
      simp only [hc.2.1, Bool.false_or, Bool.and_eq_true, List.map_cons,
        List.cons_prefix_cons]
      rw [charEqCI_eq, ih hc.2.2 t]
      simp [beq_iff_eq]

theorem likeMatch_infix_iff (ci : Bool) (term s : List Char)
    (h : noWildcardChars term = true) :
    likeMatch ci ('%' :: (term ++ ['%'])) s = true ↔
      (term.map (nrmChar ci)) <:+: (s.map (nrmChar ci)) := by
  show (List.range (s.length + 1)).any
      (fun k => likeMatch ci (term ++ ['%']) (s.drop k)) = true ↔ _
  rw [List.any_eq_true]
  constructor
  · rintro ⟨k, _, hk⟩
    rw [likeMatch_lit_pct ci term h] at hk
    rw [List.infix_iff_prefix_suffix]
    exact ⟨(s.drop k).map (nrmChar ci), hk, by
      rw [List.map_drop]
      exact List.drop_suffix k _⟩
  · intro hinf
    rw [List.infix_iff_prefix_suffix] at hinf
    obtain ⟨t, hpre, hsuf⟩ := hinf
    rw [List.suffix_iff_eq_drop] at hsuf
    refine ⟨(s.map (nrmChar ci)).length - t.length, ?_, ?_⟩
    · simp only [List.mem_range, List.length_map]
      omega
    · rw [likeMatch_lit_pct ci term h, List.map_drop]
      rw [hsuf] at hpre
      simpa using hpre

theorem rowMatchesSearch_ci (term : String) (h : noWildcard term = true) (u : User) :
    rowMatchesSearch true term u =
      (containsCI u.first_name term || containsCI u.last_name term ||
       containsCI u.email term || containsCI u.company term) := by
  have hn : nrmChar true = Char.toLower := funext fun c => rfl
  have hlm : ∀ fld : String,
      likeMatch true ('%' :: (term.toList ++ ['%'])) fld.toList = containsCI fld term := by
    intro fld
    unfold containsCI lowerChars
    by_cases hcon : (term.toList.map Char.toLower) <:+: (fld.toList.map Char.toLower)
    · rw [(likeMatch_infix_iff true term.toList fld.toList h).mpr (by rw [hn]; exact hcon),
        decide_eq_true hcon]
    · rw [decide_eq_false hcon]
      exact Bool.eq_false_iff.mpr fun hc =>
        hcon (by rw [← hn]; exact (likeMatch_infix_iff true term.toList fld.toList h).mp hc)
  unfold rowMatchesSearch likePattern
  rw [hlm, hlm, hlm, hlm]

theorem rowMatchesSearch_cs (term : String) (h : noWildcard term = true) (u : User) :
    rowMatchesSearch false term u =
      (containsCS u.first_name term || containsCS u.last_name term ||
       containsCS u.email term || containsCS u.company term) := by
  have hn : ∀ l : List Char, l.map (nrmChar false) = l := by
    intro l
    have : nrmChar false = id := funext fun c => rfl
    rw [this, List.map_id]
  have hlm : ∀ fld : String,
      likeMatch false ('%' :: (term.toList ++ ['%'])) fld.toList = containsCS fld term := by
    intro fld
    unfold containsCS
    by_cases hcon : term.toList <:+: fld.toList
    · rw [(likeMatch_infix_iff false term.toList fld.toList h).mpr (by rw [hn, hn]; exact hcon),
        decide_eq_true hcon]
    · rw [decide_eq_false hcon]
      exact Bool.eq_false_iff.mpr fun hc =>
        hcon (by
          have h2 := (likeMatch_infix_iff false term.toList fld.toList h).mp hc
          rwa [hn, hn] at h2)
  unfold rowMatchesSearch likePattern
  rw [hlm, hlm, hlm, hlm]

theorem mem_insertDesc (x u : User) (l : List User) :
    x ∈ insertDesc u l ↔ x = u ∨ x ∈ l := by
  induction l with
  | nil => simp [insertDesc]
  | cons v vs ih =>
    unfold insertDesc
    split
    · simp [or_comm, or_assoc, or_left_comm]
    · simp [ih]
      tauto

theorem mem_sortByCreatedDesc (x : User) (l : List User) :
    x ∈ sortByCreatedDesc l ↔ x ∈ l := by
  induction l with
  | nil => simp [sortByCreatedDesc]
  | cons u us ih =>
    unfold sortByCreatedDesc
    rw [mem_insertDesc]
    simp [ih]

theorem pairwise_insertDesc (u : User) (l : List User)
    (h : l.Pairwise (fun a b => b.created_at ≤ a.created_at)) :
    (insertDesc u l).Pairwise (fun a b => b.created_at ≤ a.created_at) := by
  induction l with
  | nil => simp [insertDesc]
  | cons v vs ih =>
    unfold insertDesc
    rw [List.pairwise_cons] at h
    split
    case isTrue hle =>
      rw [List.pairwise_cons]
      refine ⟨?_, List.pairwise_cons.mpr h⟩
      intro w hw
      rcases List.mem_cons.mp hw with rfl | hw2
      · exact hle
      · exact le_trans (h.1 w hw2) hle
    case isFalse hgt =>
      rw [List.pairwise_cons]
      refine ⟨?_, ih h.2⟩
      intro w hw
      rcases (mem_insertDesc w u vs).mp hw with rfl | hw2
      · omega
      · exact h.1 w hw2

theorem pairwise_sortByCreatedDesc (l : List User) :
    (sortByCreatedDesc l).Pairwise (fun a b => b.created_at ≤ a.created_at) := by
  induction l with
  | nil => simp [sortByCreatedDesc]
  | cons u us ih => exact pairwise_insertDesc u _ ih

/-- C5 counterexample: the search term is interpreted as a LIKE pattern, so
`_` acts as a single-character wildcard: searching "A_me" returns the row
whose company is "Acme" although "A_me" is not a (case-insensitive)
substring of any of its four searched fields. -/
theorem searchUsers_counterexample :
    exampleUserAcme ∈ searchUsers "A_me" exampleStoreAcme ∧
    containsCI exampleUserAcme.first_name "A_me" = false ∧
    containsCI exampleUserAcme.last_name "A_me" = false ∧
    containsCI exampleUserAcme.email "A_me" = false ∧
    containsCI exampleUserAcme.company "A_me" = false := by
  decide

/-- C5 amended: for a search term free of the LIKE wildcards `%` and `_`,
the embedded-backend `searchUsers` returns exactly the records in which the
term occurs as an ASCII-case-insensitive substring of the first name, last
name, email, or company, ordered by `created_at` descending; the
server-based backend's `searchUsers` matches the same way but
case-SENSITIVELY (PostgreSQL `LIKE`); terms containing wildcards are
interpreted as LIKE patterns instead. -/
theorem searchUsers_spec (term : String) (st : Store) (h : noWildcard term = true) :
    (∀ u, u ∈ searchUsers term st ↔ u ∈ st.users ∧
      (containsCI u.first_name term || containsCI u.last_name term ||
       containsCI u.email term || containsCI u.company term) = true) ∧
    ((searchUsers term st).Pairwise (fun a b => b.created_at ≤ a.created_at)) ∧
    (∀ u, u ∈ searchUsersPg term st ↔ u ∈ st.users ∧
      (containsCS u.first_name term || containsCS u.last_name term ||
       containsCS u.email term || containsCS u.company term) = true) := by
  refine ⟨?_, ?_, ?_⟩
  · intro u
    unfold searchUsers
    rw [mem_sortByCreatedDesc, List.mem_filter, rowMatchesSearch_ci term h u]
  · exact pairwise_sortByCreatedDesc _
  · intro u
    unfold searchUsersPg
    rw [mem_sortByCreatedDesc, List.mem_filter, rowMatchesSearch_cs term h u]

/-- Witness for C5's amended claim at a concrete store: "acme" (no
wildcards) characterizes membership case-insensitively for the embedded
backend and case-sensitively for the server-based one. -/
theorem searchUsers_spec_witness :
    (exampleUserAcme ∈ searchUsers "acme" exampleStoreAcme ↔
      exampleUserAcme ∈ exampleStoreAcme.users ∧
      (containsCI exampleUserAcme.first_name "acme" ||
       containsCI exampleUserAcme.last_name "acme" ||
       containsCI exampleUserAcme.email "acme" ||
       containsCI exampleUserAcme.company "acme") = true) ∧
    (exampleUserAcme ∈ searchUsersPg "acme" exampleStoreAcme ↔
      exampleUserAcme ∈ exampleStoreAcme.users ∧
      (containsCS exampleUserAcme.first_name "acme" ||
       containsCS exampleUserAcme.last_name "acme" ||
       containsCS exampleUserAcme.email "acme" ||
       containsCS exampleUserAcme.company "acme") = true) :=
  ⟨((searchUsers_spec "acme" exampleStoreAcme (by decide)).1 exampleUserAcme),
   ((searchUsers_spec "acme" exampleStoreAcme (by decide)).2.2 exampleUserAcme)⟩

/-! ## Registration route: shared lemmas -/

theorem map_skip_id (upd : User → User) (id : Nat) (l : List User)
    (hl : ∀ v ∈ l, v.id ≠ id) :
    l.map (fun v => if v.id == id then upd v else v) = l := by
  conv_rhs => rw [← List.map_id l]
  apply List.map_congr_left
  intro v hv
  rw [if_neg (by simpa using hl v hv)]
  rfl

theorem applyNotifications_append (w a : EmailOutcome) (id now : Nat)
    (l : List User) (u : User) (n : Nat) (hu : u.id = id) (hl : ∀ v ∈ l, v.id ≠ id) :
    applyNotifications w a id now { users := l ++ [u], nextId := n } =
      { users := l ++ [notifiedUser w a now u], nextId := n } := by
  have key : ∀ (g : User → User) (u2 : User), u2.id = id →
      (l ++ [u2]).map (fun v => if v.id == id then g v else v) = l ++ [g u2] := by
    intro g u2 hu2
    rw [List.map_append, map_skip_id g id l hl]
    simp [hu2]
  unfold applyNotifications updateEmailSentStatus updateAdminNotificationSentStatus
    notifiedUser
  by_cases hw : (w.success && optTruthy w.messageId) = true
  · by_cases ha : (a.success && optTruthy a.messageId) = true
    · simp only [hw, ha, if_true]
      rw [key _ u hu, key _ _ (by simp [hu])]
    · simp only [hw, ha, Bool.false_eq_true, if_true, if_false]
      rw [key _ u hu]
  · by_cases ha : (a.success && optTruthy a.messageId) = true
    · simp only [hw, ha, Bool.false_eq_true, if_true, if_false]
      rw [key _ u hu]
    · simp only [hw, ha, Bool.false_eq_true, if_false]

theorem notifiedUser_email (w a : EmailOutcome) (now : Nat) (u : User) :
    (notifiedUser w a now u).email = u.email := by
  unfold notifiedUser
  split <;> split <;> rfl

theorem getUserByEmail_none_any (e : String) (st : Store)
    (h : getUserByEmail e st = none) :
    ∀ v ∈ st.users, (v.email == normEmail e) = false := by
  intro v hv
  have h2 : st.users.find? (fun u => u.email == normEmail e) = none := h
  rw [List.find?_eq_none] at h2
  simpa using h2 v hv

/-- The success path of the registration route: with all required fields
present (truthy), a well-formed email, no existing row for the normalized
email, and a store whose rows do not use the next id, the route answers 200
with the created row's public projection and appends exactly the new row
(with the best-effort notification updates applied to it). -/
theorem registerPOST_success (req : RegisterReq) (w a : EmailOutcome) (now : Nat)
    (st : Store)
    (h1 : requiredFieldsPresent req = true)
    (h2 : emailFormatValid (req.email.getD "") = true)
    (h3 : getUserByEmail (req.email.getD "") st = none)
    (h4 : ∀ v ∈ st.users, v.id ≠ st.nextId) :
    registerPOST req w a now st =
      ({ status := 200, error := none,
         user := some (publicProjection (mkUser (userDataOf req) now st.nextId)) },
       { users := st.users ++ [notifiedUser w a now (mkUser (userDataOf req) now st.nextId)],
         nextId := st.nextId + 1 }) := by
  unfold registerPOST registerPOSTCore
  rw [if_neg (by simp [h1]), if_neg (by simp [h2]), if_neg (by simp [h3])]
  have hany : st.users.any (fun v => v.email == normEmail (userDataOf req).email) = false := by
    rw [List.any_eq_false]
    intro v hv
    have he : (userDataOf req).email = normEmail (req.email.getD "") := rfl
    rw [he, normEmail_idem]
    simp [getUserByEmail_none_any _ _ h3 v hv]
  unfold createUser
  rw [if_neg (by simp [hany])]
  exact congrArg _
    (applyNotifications_append w a st.nextId now st.users
      (mkUser (userDataOf req) now st.nextId) (st.nextId + 1) rfl h4)

theorem registerPOST_duplicate (req : RegisterReq) (w a : EmailOutcome) (now : Nat)
    (st : Store)
    (h1 : requiredFieldsPresent req = true)
    (h2 : emailFormatValid (req.email.getD "") = true)
    (h3 : (getUserByEmail (req.email.getD "") st).isSome = true) :
    registerPOST req w a now st =
      ({ status := 409, error := some duplicateEmailMsg, user := none }, st) := by
  unfold registerPOST registerPOSTCore
  rw [if_neg (by simp [h1]), if_neg (by simp [h2]), if_pos (by simp [h3])]

theorem registerPOSTCore_race (req : RegisterReq) (w a : EmailOutcome) (now : Nat)
    (stCheck stPersist : Store)
    (h1 : requiredFieldsPresent req = true)
    (h2 : emailFormatValid (req.email.getD "") = true)
    (h3 : getUserByEmail (req.email.getD "") stCheck = none)
    (h5 : ∃ v ∈ stPersist.users, v.email = normEmail (req.email.getD "")) :
    registerPOSTCore req w a now stCheck stPersist =
      ({ status := 500, error := some internalErrorMsg, user := none }, stPersist) := by
  unfold registerPOSTCore
  rw [if_neg (by simp [h1]), if_neg (by simp [h2]), if_neg (by simp [h3])]
  unfold createUser
  rw [if_pos ?hc]
  case hc =>
    rw [List.any_eq_true]
    obtain ⟨v, hv, hve⟩ := h5
    refine ⟨v, hv, ?_⟩
    have he : (userDataOf req).email = normEmail (req.email.getD "") := rfl
    rw [he, normEmail_idem, hve]
    exact beq_self_eq_true _

/-- C2 amended: registering the same email twice (case-insensitively, after
normalization) yields the 409 duplicate error on the second attempt with the
store unchanged, and the row count rises by exactly one; BUT a
unique-constraint failure at persist time (a concurrent duplicate landing
between the route's pre-check and its insert) is caught by the route's
generic handler and surfaces as the 500 "Internal server error" response,
not as the 409 duplicate error. -/
theorem register_duplicate_spec
    (req req2 : RegisterReq) (w1 a1 w2 a2 : EmailOutcome) (t1 t2 : Nat) (st : Store)
    (h1 : requiredFieldsPresent req = true)
    (h2 : emailFormatValid (req.email.getD "") = true)
    (h3 : getUserByEmail (req.email.getD "") st = none)
    (h4 : ∀ v ∈ st.users, v.id ≠ st.nextId)
    (h5 : requiredFieldsPresent req2 = true)
    (h6 : emailFormatValid (req2.email.getD "") = true)
    (h7 : normEmail (req2.email.getD "") = normEmail (req.email.getD "")) :
    ((registerPOST req w1 a1 t1 st).1.status = 200) ∧
    (registerPOST req2 w2 a2 t2 (registerPOST req w1 a1 t1 st).2 =
      ({ status := 409, error := some duplicateEmailMsg, user := none },
       (registerPOST req w1 a1 t1 st).2)) ∧
    (getUserCount (registerPOST req w1 a1 t1 st).2 = getUserCount st + 1) ∧
    (∀ stRace, (∃ v ∈ stRace.users, v.email = normEmail (req2.email.getD "")) →
      (registerPOSTCore req2 w2 a2 t2 st stRace).1 =
        { status := 500, error := some internalErrorMsg, user := none }) := by
  have hrun := registerPOST_success req w1 a1 t1 st h1 h2 h3 h4
  have hmail : (notifiedUser w1 a1 t1 (mkUser (userDataOf req) t1 st.nextId)).email
      = normEmail (req.email.getD "") := by
    rw [notifiedUser_email]
    show normEmail (userDataOf req).email = normEmail (req.email.getD "")
    exact normEmail_idem _
  refine ⟨by rw [hrun], ?_, ?_, ?_⟩
  · rw [hrun]
    apply registerPOST_duplicate req2 w2 a2 t2 _ h5 h6
    rw [Option.isSome_iff_exists]
    refine ⟨notifiedUser w1 a1 t1 (mkUser (userDataOf req) t1 st.nextId), ?_⟩
    show List.find? _ (st.users ++ [_]) = _
    rw [find?_append_none]
    · simp [hmail, h7]
    · rw [List.find?_eq_none]
      intro v hv
      rw [h7]
      simp [getUserByEmail_none_any _ _ h3 v hv]
  · rw [hrun]
    show (st.users ++ [_]).length = st.users.length + 1
    simp
  · intro stRace h8
    rw [registerPOSTCore_race req2 w2 a2 t2 st stRace h5 h6 ?h3b h8]
    case h3b =>
      show List.find? _ st.users = none
      rw [List.find?_eq_none]
      intro v hv
      rw [h7]
      simp [getUserByEmail_none_any _ _ h3 v hv]

/-- C2 counterexample: with an empty store at pre-check time but the email
already present at persist time (the race the claim covers), the route
answers the generic 500, not the 409 duplicate error. -/
theorem register_race_counterexample :
    (registerPOSTCore exampleReq2 mailFail mailFail 7 exampleStoreEmpty exampleStoreAcme).1 =
      { status := 500, error := some internalErrorMsg, user := none } ∧
    (registerPOSTCore exampleReq2 mailFail mailFail 7 exampleStoreEmpty exampleStoreAcme).1.status
      ≠ 409 := by
  decide

/-- Witness for C2's amended claim at concrete inputs. -/
theorem register_duplicate_spec_witness :
    ((registerPOST exampleReq mailOk mailFail 5 exampleStoreEmpty).1.status = 200) ∧
    (registerPOST exampleReq2 mailFail mailFail 6
        (registerPOST exampleReq mailOk mailFail 5 exampleStoreEmpty).2 =
      ({ status := 409, error := some duplicateEmailMsg, user := none },
       (registerPOST exampleReq mailOk mailFail 5 exampleStoreEmpty).2)) ∧
    (getUserCount (registerPOST exampleReq mailOk mailFail 5 exampleStoreEmpty).2 =
      getUserCount exampleStoreEmpty + 1) ∧
    ((registerPOSTCore exampleReq2 mailFail mailFail 6 exampleStoreEmpty exampleStoreAcme).1 =
      { status := 500, error := some internalErrorMsg, user := none }) := by
  have h := register_duplicate_spec exampleReq exampleReq2 mailOk mailFail mailFail mailFail
    5 6 exampleStoreEmpty (by decide) (by decide) (by decide) (by decide) (by decide)
    (by decide) (by decide)
  exact ⟨h.1, h.2.1, h.2.2.1,
    h.2.2.2 exampleStoreAcme ⟨exampleUserAcme, by decide, by decide⟩⟩

/-- C3: when the welcome-email send reports success with a message id, the
created row's welcome-notification fields are updated: `email_sent` becomes
true, `email_sent_at` the send instant, `email_message_id` the transport's
message id. -/
theorem register_welcome_success_spec
    (req : RegisterReq) (a : EmailOutcome) (mid : String) (now : Nat) (st : Store)
    (h1 : requiredFieldsPresent req = true)
    (h2 : emailFormatValid (req.email.getD "") = true)
    (h3 : getUserByEmail (req.email.getD "") st = none)
    (h4 : ∀ v ∈ st.users, v.id ≠ st.nextId)
    (hmid : mid ≠ "") :
    ∃ u1, (registerPOST req { success := true, messageId := some mid } a now st).2.users
        = st.users ++ [u1] ∧
      u1.email_sent = true ∧ u1.email_sent_at = some now ∧
      u1.email_message_id = some mid := by
  rw [registerPOST_success req _ a now st h1 h2 h3 h4]
  refine ⟨notifiedUser { success := true, messageId := some mid } a now
    (mkUser (userDataOf req) now st.nextId), rfl, ?_⟩
  have hw : (({ success := true, messageId := some mid } : EmailOutcome).success &&
      optTruthy ({ success := true, messageId := some mid } : EmailOutcome).messageId) = true := by
    simp [optTruthy, hmid]
  unfold notifiedUser
  rw [if_pos hw]
  split <;> exact ⟨rfl, rfl, rfl⟩

/-- Witness for C3 at concrete inputs. -/
theorem register_welcome_success_witness :
    ∃ u1, (registerPOST exampleReq { success := true, messageId := some "msg-1" }
        mailFail 5 exampleStoreEmpty).2.users = exampleStoreEmpty.users ++ [u1] ∧
      u1.email_sent = true ∧ u1.email_sent_at = some 5 ∧
      u1.email_message_id = some "msg-1" :=
  register_welcome_success_spec exampleReq mailFail "msg-1" 5 exampleStoreEmpty
    (by decide) (by decide) (by decide) (by decide) (by decide)

/-- C6: a failed welcome-email send does not fail the registration — the
route still answers 200 with the created row's public projection, and the
stored row's `email_sent` flag stays false. -/
theorem register_welcome_failure_spec
    (req : RegisterReq) (w a : EmailOutcome) (now : Nat) (st : Store)
    (h1 : requiredFieldsPresent req = true)
    (h2 : emailFormatValid (req.email.getD "") = true)
    (h3 : getUserByEmail (req.email.getD "") st = none)
    (h4 : ∀ v ∈ st.users, v.id ≠ st.nextId)
    (hw : w.success = false) :
    ((registerPOST req w a now st).1.status = 200) ∧
    ((registerPOST req w a now st).1.user =
      some (publicProjection (mkUser (userDataOf req) now st.nextId))) ∧
    (∃ u1, (registerPOST req w a now st).2.users = st.users ++ [u1] ∧
      u1.email_sent = false) := by
  rw [registerPOST_success req w a now st h1 h2 h3 h4]
  refine ⟨rfl, rfl, notifiedUser w a now (mkUser (userDataOf req) now st.nextId), rfl, ?_⟩
  unfold notifiedUser
  have hcond : (w.success && optTruthy w.messageId) = false := by simp [hw]
  rw [hcond]
  split
  case isTrue h => exact absurd h (by simp)
  case isFalse h => split <;> rfl

/-- Witness for C6 at concrete inputs. -/
theorem register_welcome_failure_witness :
    ((registerPOST exampleReq mailFail mailOk 5 exampleStoreEmpty).1.status = 200) ∧
    ((registerPOST exampleReq mailFail mailOk 5 exampleStoreEmpty).1.user =
      some (publicProjection (mkUser (userDataOf exampleReq) 5 exampleStoreEmpty.nextId))) ∧
    (∃ u1, (registerPOST exampleReq mailFail mailOk 5 exampleStoreEmpty).2.users =
        exampleStoreEmpty.users ++ [u1] ∧ u1.email_sent = false) :=
  register_welcome_failure_spec exampleReq mailFail mailOk 5 exampleStoreEmpty
    (by decide) (by decide) (by decide) (by decide) (by decide)

/-! ## C1: initialization retry with backoff -/

theorem retryLoopFull_succ_ok (oracle : Nat → Except String Unit) (jitter : Nat → ℚ)
    (baseDelay : ℚ) (maxRetries f attempt : Nat) (u : Unit)
    (hm : oracle attempt = .ok u) :
    retryLoopFull oracle jitter baseDelay maxRetries (f + 1) attempt =
      (.ok (), []) := by
  simp only [retryLoopFull]
  rw [hm]

theorem retryLoopFull_succ_error (oracle : Nat → Except String Unit) (jitter : Nat → ℚ)
    (baseDelay : ℚ) (maxRetries f attempt : Nat) (msg : String)
    (hm : oracle attempt = .error msg) :
    retryLoopFull oracle jitter baseDelay maxRetries (f + 1) attempt =
      (if isConnectionErrorFull msg && decide (attempt < maxRetries) then
        ((retryLoopFull oracle jitter baseDelay maxRetries f (attempt + 1)).1,
          backoffDelay baseDelay jitter attempt ::
            (retryLoopFull oracle jitter baseDelay maxRetries f (attempt + 1)).2)
      else (.error msg, [])) := by
  simp only [retryLoopFull]
  rw [hm]

theorem retryLoopFull_ok (oracle : Nat → Except String Unit) (jitter : Nat → ℚ)
    (baseDelay : ℚ) (maxRetries : Nat) :
    ∀ k attempt, 1 ≤ attempt → attempt + k ≤ maxRetries →
    (∀ i, attempt ≤ i → i < attempt + k →
      ∃ m, oracle i = .error m ∧ isConnectionErrorFull m = true) →
    oracle (attempt + k) = .ok () →
    retryLoopFull oracle jitter baseDelay maxRetries (maxRetries + 1 - attempt) attempt =
      (.ok (), (List.range k).map (fun i => backoffDelay baseDelay jitter (attempt + i))) := by
  intro k
  induction k with
  | zero =>
    intro attempt h1 h2 _ hok
    obtain ⟨f, hf⟩ : ∃ f, maxRetries + 1 - attempt = f + 1 := ⟨maxRetries - attempt, by omega⟩
    rw [hf, retryLoopFull_succ_ok oracle jitter baseDelay maxRetries f attempt () hok]
    simp
  | succ k2 ih =>
    intro attempt h1 h2 hcf hok
    obtain ⟨m, hm, hmc⟩ := hcf attempt (le_refl _) (by omega)
    obtain ⟨f, hf⟩ : ∃ f, maxRetries + 1 - attempt = f + 1 := ⟨maxRetries - attempt, by omega⟩
    rw [hf, retryLoopFull_succ_error oracle jitter baseDelay maxRetries f attempt m hm]
    rw [if_pos (by simp only [hmc, Bool.true_and, decide_eq_true_eq]; omega)]
    have hf2 : f = maxRetries + 1 - (attempt + 1) := by omega
    rw [hf2, ih (attempt + 1) (by omega) (by omega)
      (fun i hi1 hi2 => hcf i (by omega) (by omega)) (by
        rw [show attempt + 1 + k2 = attempt + (k2 + 1) from by omega]
        exact hok)]
    rw [List.range_succ_eq_map, List.map_cons, List.map_map]
    have hfun : ((fun i => backoffDelay baseDelay jitter (attempt + i)) ∘ Nat.succ)
        = (fun i => backoffDelay baseDelay jitter (attempt + 1 + i)) := by
      funext i
      show backoffDelay baseDelay jitter (attempt + Nat.succ i) = _
      congr 1
      omega
    rw [hfun]
    rfl

theorem retryLoopFull_error (oracle : Nat → Except String Unit) (jitter : Nat → ℚ)
    (baseDelay : ℚ) (maxRetries : Nat) :
    ∀ k attempt m, 1 ≤ attempt → attempt + k ≤ maxRetries →
    (∀ i, attempt ≤ i → i < attempt + k →
      ∃ m2, oracle i = .error m2 ∧ isConnectionErrorFull m2 = true) →
    oracle (attempt + k) = .error m →
    (isConnectionErrorFull m = false ∨ attempt + k = maxRetries) →
    retryLoopFull oracle jitter baseDelay maxRetries (maxRetries + 1 - attempt) attempt =
      (.error m, (List.range k).map (fun i => backoffDelay baseDelay jitter (attempt + i))) := by
  intro k
  induction k with
  | zero =>
    intro attempt m h1 h2 _ herr hstop
    obtain ⟨f, hf⟩ : ∃ f, maxRetries + 1 - attempt = f + 1 := ⟨maxRetries - attempt, by omega⟩
    rw [hf, retryLoopFull_succ_error oracle jitter baseDelay maxRetries f attempt m herr]
    rw [if_neg ?hstop2]
    · simp
    case hstop2 =>
      rcases hstop with hnc | hlast
      · simp [hnc]
      · simp only [Bool.and_eq_true, decide_eq_true_eq, not_and]
        intro _
        omega
  | succ k2 ih =>
    intro attempt m h1 h2 hcf herr hstop
    obtain ⟨m2, hm2, hmc2⟩ := hcf attempt (le_refl _) (by omega)
    obtain ⟨f, hf⟩ : ∃ f, maxRetries + 1 - attempt = f + 1 := ⟨maxRetries - attempt, by omega⟩
    rw [hf, retryLoopFull_succ_error oracle jitter baseDelay maxRetries f attempt m2 hm2]
    rw [if_pos (by simp only [hmc2, Bool.true_and, decide_eq_true_eq]; omega)]
    have hf2 : f = maxRetries + 1 - (attempt + 1) := by omega
    rw [hf2, ih (attempt + 1) m (by omega) (by omega)
      (fun i hi1 hi2 => hcf i (by omega) (by omega)) (by
        rw [show attempt + 1 + k2 = attempt + (k2 + 1) from by omega]
        exact herr) (by
        rcases hstop with hnc | hlast
        · exact Or.inl hnc
        · exact Or.inr (by omega))]
    rw [List.range_succ_eq_map, List.map_cons, List.map_map]
    have hfun : ((fun i => backoffDelay baseDelay jitter (attempt + i)) ∘ Nat.succ)
        = (fun i => backoffDelay baseDelay jitter (attempt + 1 + i)) := by
      funext i
      show backoffDelay baseDelay jitter (attempt + Nat.succ i) = _
      congr 1
      omega
    rw [hfun]
    rfl

theorem retryLoopFull_waits (oracle : Nat → Except String Unit) (jitter : Nat → ℚ)
    (baseDelay : ℚ) (maxRetries : Nat) :
    ∀ fuel attempt,
      ((retryLoopFull oracle jitter baseDelay maxRetries fuel attempt).2.length ≤ fuel) ∧
      (∀ d ∈ (retryLoopFull oracle jitter baseDelay maxRetries fuel attempt).2,
        ∃ a2, attempt ≤ a2 ∧ d = backoffDelay baseDelay jitter a2) := by
  intro fuel
  induction fuel with
  | zero =>
    intro attempt
    exact ⟨by simp [retryLoopFull], by simp [retryLoopFull]⟩
  | succ f ih =>
    intro attempt
    rcases horacle : oracle attempt with m | u
    · rw [retryLoopFull_succ_error oracle jitter baseDelay maxRetries f attempt m horacle]
      by_cases hc : (isConnectionErrorFull m && decide (attempt < maxRetries)) = true
      · rw [if_pos hc]
        refine ⟨?_, ?_⟩
        · simp only [List.length_cons]
          exact Nat.succ_le_succ (ih (attempt + 1)).1
        · intro d hd
          rcases List.mem_cons.mp hd with rfl | hd2
          · exact ⟨attempt, le_refl _, rfl⟩
          · obtain ⟨a2, ha2, hda⟩ := (ih (attempt + 1)).2 d hd2
            exact ⟨a2, by omega, hda⟩
      · rw [if_neg hc]
        exact ⟨by simp, by simp⟩
    · rw [retryLoopFull_succ_ok oracle jitter baseDelay maxRetries f attempt u horacle]
      exact ⟨by simp, by simp⟩

/-- C1: during store initialization in the server-based backend (the
backoff variant of `initializeDatabaseWithRetry`), a schema-setup failure
classified as connection-class (refused / DNS / timeout / TLS-certificate /
socket-reset patterns) is retried, waiting `min(baseDelay * 1.5^(attempt-1)
+ jitter attempt, 30000)` before each retry — exponential backoff plus the
random jitter draw, capped at the 30-second maximum delay — for at most
`maxRetries` attempts; a non-connection-class failure propagates at once;
exhausting the retry budget propagates the last failure; every wait
respects the cap and the number of waits never exceeds the retry bound. -/
theorem initializeDatabaseWithRetryFull_spec
    (maxRetries : Nat) (baseDelay : ℚ) (oracle : Nat → Except String Unit)
    (jitter : Nat → ℚ) (hmax : 1 ≤ maxRetries) :
    (∀ k, k < maxRetries →
      (∀ i, 1 ≤ i → i ≤ k → ∃ m, oracle i = .error m ∧ isConnectionErrorFull m = true) →
      oracle (k + 1) = .ok () →
      initializeDatabaseWithRetryFull maxRetries baseDelay oracle jitter =
        (.ok (), (List.range k).map (fun i => backoffDelay baseDelay jitter (i + 1)))) ∧
    (∀ k m, k < maxRetries →
      (∀ i, 1 ≤ i → i ≤ k → ∃ m2, oracle i = .error m2 ∧ isConnectionErrorFull m2 = true) →
      oracle (k + 1) = .error m → isConnectionErrorFull m = false →
      initializeDatabaseWithRetryFull maxRetries baseDelay oracle jitter =
        (.error m, (List.range k).map (fun i => backoffDelay baseDelay jitter (i + 1)))) ∧
    (∀ m, (∀ i, 1 ≤ i → i < maxRetries →
        ∃ m2, oracle i = .error m2 ∧ isConnectionErrorFull m2 = true) →
      oracle maxRetries = .error m →
      initializeDatabaseWithRetryFull maxRetries baseDelay oracle jitter =
        (.error m,
         (List.range (maxRetries - 1)).map (fun i => backoffDelay baseDelay jitter (i + 1)))) ∧
    ((∀ d ∈ (initializeDatabaseWithRetryFull maxRetries baseDelay oracle jitter).2,
        d ≤ 30000 ∧ ∃ a2, d = backoffDelay baseDelay jitter a2) ∧
      (initializeDatabaseWithRetryFull maxRetries baseDelay oracle jitter).2.length
        ≤ maxRetries) := by
  have hfuel : maxRetries + 1 - 1 = maxRetries := by omega
  refine ⟨?_, ?_, ?_, ?_, ?_⟩
  · intro k hk hcf hok
    have h := retryLoopFull_ok oracle jitter baseDelay maxRetries k 1 (le_refl _)
      (by omega) (fun i hi1 hi2 => hcf i hi1 (by omega))
      (by rw [show (1 : Nat) + k = k + 1 from by omega]; exact hok)
    rw [hfuel] at h
    unfold initializeDatabaseWithRetryFull
    rw [h]
    simp [Nat.add_comm]
  · intro k m hk hcf herr hnc
    have h := retryLoopFull_error oracle jitter baseDelay maxRetries k 1 m (le_refl _)
      (by omega) (fun i hi1 hi2 => hcf i hi1 (by omega))
      (by rw [show (1 : Nat) + k = k + 1 from by omega]; exact herr) (Or.inl hnc)
    rw [hfuel] at h
    unfold initializeDatabaseWithRetryFull
    rw [h]
    simp [Nat.add_comm]
  · intro m hcf herr
    have h := retryLoopFull_error oracle jitter baseDelay maxRetries (maxRetries - 1) 1 m
      (le_refl _) (by omega) (fun i hi1 hi2 => hcf i hi1 (by omega))
      (by rw [show (1 : Nat) + (maxRetries - 1) = maxRetries from by omega]; exact herr)
      (Or.inr (by omega))
    rw [hfuel] at h
    unfold initializeDatabaseWithRetryFull
    rw [h]
    simp [Nat.add_comm]
  · intro d hd
    obtain ⟨a2, _, hda⟩ :=
      (retryLoopFull_waits oracle jitter baseDelay maxRetries maxRetries 1).2 d hd
    exact ⟨by rw [hda]; exact min_le_right _ _, a2, hda⟩
  · exact (retryLoopFull_waits oracle jitter baseDelay maxRetries maxRetries 1).1

/-- Witness for C1: two connection-class failures then success, with
`baseDelay = 2000` and constant jitter 7, sleeps 2007 then 3007 ms. -/
theorem initializeDatabaseWithRetryFull_witness :
    initializeDatabaseWithRetryFull 5 2000 exampleOracle exampleJitter =
      (.ok (), [2007, 3007]) := by
  have h := (initializeDatabaseWithRetryFull_spec 5 2000 exampleOracle exampleJitter
    (by norm_num)).1 2 (by norm_num)
    (fun i hi1 hi2 => ⟨"ECONNREFUSED 127.0.0.1:5432", by
      have hi : i = 1 ∨ i = 2 := by omega
      rcases hi with rfl | rfl <;> rfl, by decide⟩)
    (by rfl)
  rw [h]
  norm_num [backoffDelay, exampleJitter, List.range_succ]

/-! ## The fixed-delay variant of the retry loop

For contrast with the backoff variant: the copy of
`initializeDatabaseWithRetry` in `src/lib/database.ts` waits the constant
`delayMs` before every retry — no exponential growth, no jitter, no cap. -/

theorem retryLoopSimple_succ_error (oracle : Nat → Except String Unit) (delayMs : ℚ)
    (maxRetries f attempt : Nat) (msg : String)
    (hm : oracle attempt = .error msg) :
    retryLoopSimple oracle delayMs maxRetries (f + 1) attempt =
      (if isConnectionErrorSimple msg && decide (attempt < maxRetries) then
        ((retryLoopSimple oracle delayMs maxRetries f (attempt + 1)).1,
          delayMs :: (retryLoopSimple oracle delayMs maxRetries f (attempt + 1)).2)
      else (.error msg, [])) := by
  simp only [retryLoopSimple]
  rw [hm]

/-- Every wait of the fixed-delay variant equals `delayMs`. -/
theorem initializeDatabaseWithRetry_constant_waits (maxRetries : Nat) (delayMs : ℚ)
    (oracle : Nat → Except String Unit) :
    ∀ d ∈ (initializeDatabaseWithRetry maxRetries delayMs oracle).2, d = delayMs := by
  suffices h : ∀ fuel attempt,
      ∀ d ∈ (retryLoopSimple oracle delayMs maxRetries fuel attempt).2, d = delayMs by
    exact h maxRetries 1
  intro fuel
  induction fuel with
  | zero =>
    intro attempt
    simp [retryLoopSimple]
  | succ f ih =>
    intro attempt
    rcases horacle : oracle attempt with m | u
    · rw [retryLoopSimple_succ_error oracle delayMs maxRetries f attempt m horacle]
      by_cases hc : (isConnectionErrorSimple m && decide (attempt < maxRetries)) = true
      · rw [if_pos hc]
        intro d hd
        rcases List.mem_cons.mp hd with rfl | hd2
        · rfl
        · exact ih (attempt + 1) d hd2
      · rw [if_neg hc]
        simp
    · have : retryLoopSimple oracle delayMs maxRetries (f + 1) attempt = (.ok (), []) := by
        simp only [retryLoopSimple]
        rw [horacle]
      rw [this]
      simp

end SoftDev
